import Mathlib

/-!
Verification of the Aura backend mission orchestrator against its
natural-language specification.

The Python sources are shallowly embedded: pure logic becomes Lean
functions, stateful code becomes explicit state passing, and emitted
events become explicit event traces.  Python strings are Lean `String`,
Python `None`-able values are `Option`, Python dict-based tool results
are a small inductive value domain covering exactly the shapes the
classifiers inspect.
-/

namespace Aura

/-! ## Python string primitives

Embeddings of the Python string operations used by the classifiers:
`str.strip` (whitespace trim), `str.lower`, `str.startswith`, and the
`needle in hay` substring test.  `isPySpace` covers the ASCII whitespace
characters Python strips. -/

def isPySpace (c : Char) : Bool :=
  c == ' ' || c == '\t' || c == '\n' || c == '\r' || c == '\x0b' || c == '\x0c'

def trimList (l : List Char) : List Char :=
  ((l.dropWhile isPySpace).reverse.dropWhile isPySpace).reverse

def pyStrip (s : String) : String :=
  String.mk (trimList s.toList)

def pyLower (s : String) : String :=
  String.mk (s.toList.map Char.toLower)

def strStartsWith (s p : String) : Bool :=
  p.toList.isPrefixOf s.toList

def listContains (needle : List Char) : List Char → Bool
  | [] => needle == []
  | c :: rest => needle.isPrefixOf (c :: rest) || listContains needle rest

def strContains (hay needle : String) : Bool :=
  listContains needle.toList hay.toList

/-- Python truthiness of an optional string: `None` and `""` are falsy. -/
def pyTruthy : Option String → Bool
  | Option.none => false
  | some s => s != ""

/-- Python `a or b` over an optional string `a` and a fallback `b`:
yields `a` when `a` is truthy, else `b`. -/
def pyOrStr (a : Option String) (b : String) : String :=
  match a with
  | Option.none => b
  | some s => if s == "" then b else s

/-! ## Tool result values

The value domain over which the result classifiers operate.
`PyVal.none` is Python `None`; `PyVal.str` a string result; `PyVal.dict`
a mapping result carrying the only three keys any classifier reads
(`status`, `summary`, `full_output`, each possibly absent);
`PyVal.other` any other value (list, number, object...). -/

inductive PyVal where
  | none
  | str (s : String)
  | dict (status : Option String) (summary : Option String) (full_output : Option String)
  | other
  deriving DecidableEq, Repr

inductive Status where
  | SUCCESS
  | FAILURE
  deriving DecidableEq, Repr

/-! ## Tool Runner result classification

From `ToolRunnerService.run_tool` (src/services/tool_runner_service.py,
lines 107-114):

    if isinstance(result, str) and result.strip().lower().startswith("error"):
        status = "FAILURE"
    elif isinstance(result, dict) and result.get('status') in ["failure", "error"]:
        status = "FAILURE"
    else:
        status = "SUCCESS"

Note: `None` falls through to the `else` branch (SUCCESS); the dict
check compares the raw `status` value against the two lowercase literals
with no lowercasing. -/

def runToolStatus (result : PyVal) : Status :=
  match result with
  | .str s =>
      if strStartsWith (pyLower (pyStrip s)) "error" then .FAILURE else .SUCCESS
  | .dict st _ _ =>
      if st == some "failure" || st == some "error" then .FAILURE else .SUCCESS
  | _ => .SUCCESS

/-! ## The spec's reference classification

Modelled from the spec (section 4.4, "Result classification"): null →
FAILURE with message "tool returned empty result"; a string whose
trimmed lowercase starts with "error" or contains "failed" or contains
"not found" → FAILURE with the string as message; a mapping whose
lowercased `status` is "failure" or "error" → FAILURE with message
summary ?? full_output ?? a default; otherwise SUCCESS.  The default
message text is unspecified by the spec. -/

def specResultClassification (result : PyVal) : Status × Option String :=
  match result with
  | .none => (.FAILURE, some "tool returned empty result")
  | .str s =>
      let t := pyLower (pyStrip s)
      if strStartsWith t "error" || strContains t "failed" || strContains t "not found" then
        (.FAILURE, some s)
      else
        (.SUCCESS, Option.none)
  | .dict st sm fo =>
      match st with
      | some v =>
          if pyLower v == "failure" || pyLower v == "error" then
            (.FAILURE, some ((sm <|> fo).getD "tool reported failure"))
          else
            (.SUCCESS, Option.none)
      | Option.none => (.SUCCESS, Option.none)
  | .other => (.SUCCESS, Option.none)

/-! ## Conductor result classification

From `ConductorService._is_result_an_error`
(src/services/conductor_service.py, lines 193-202):

    if result is None:
        return True, "Tool returned an empty result, which indicates a potential failure."
    if isinstance(result, str) and (
            result.strip().lower().startswith("error") or "failed" in result.strip().lower()):
        return True, result
    if isinstance(result, dict) and result.get('status', 'success').lower() in ["failure", "error"]:
        return True, result.get('summary') or result.get(
            'full_output') or "Tool indicated failure without a detailed message."
    return False, None
-/

def isResultAnError (result : PyVal) : Bool × Option String :=
  match result with
  | .none =>
      (true, some "Tool returned an empty result, which indicates a potential failure.")
  | .str s =>
      if strStartsWith (pyLower (pyStrip s)) "error"
          || strContains (pyLower (pyStrip s)) "failed" then
        (true, some s)
      else
        (false, Option.none)
  | .dict st sm fo =>
      if pyLower (st.getD "success") == "failure" || pyLower (st.getD "success") == "error" then
        (true, some (pyOrStr sm (pyOrStr fo "Tool indicated failure without a detailed message.")))
      else
        (false, Option.none)
  | .other => (false, Option.none)

end Aura

namespace Aura

/-- C2, counterexample.  The claim says the Tool Runner's classification
equals the spec's reference definition for every result value; at the
null result they disagree: the runner classifies `None` as SUCCESS (its
`else` branch), while the spec's reference definition classifies it as
FAILURE with message "tool returned empty result". -/
theorem c2_counterexample_null_result :
    runToolStatus PyVal.none = Status.SUCCESS ∧
      specResultClassification PyVal.none =
        (Status.FAILURE, some "tool returned empty result") := by
  constructor <;> rfl

/-- C2, amended.  Every result the Tool Runner classifies as FAILURE is
also a FAILURE under the spec's reference definition (the runner is
strictly more lenient: it additionally classifies null results, strings
merely containing "failed" or "not found", and mappings with
non-lowercase status values as SUCCESS, and it computes no message). -/
theorem c2_runner_failure_implies_spec_failure (r : PyVal)
    (h : runToolStatus r = Status.FAILURE) :
    (specResultClassification r).1 = Status.FAILURE := by
  cases r with
  | none => rfl
  | str s =>
      simp only [runToolStatus] at h
      by_cases hs : strStartsWith (pyLower (pyStrip s)) "error"
      · simp only [specResultClassification, hs, Bool.true_or, if_pos]
      · simp [hs] at h
  | dict st sm fo =>
      simp only [runToolStatus] at h
      by_cases hf : st == some "failure"
      · have : st = some "failure" := by
          cases st with
          | none => simp at hf
          | some v => simpa using hf
        subst this
        simp [specResultClassification, pyLower, pyStrip]
      · by_cases he : st == some "error"
        · have : st = some "error" := by
            cases st with
            | none => simp at he
            | some v => simpa using he
          subst this
          simp [specResultClassification, pyLower, pyStrip]
        · simp [hf, he] at h
  | other => simp [runToolStatus] at h

/-- C2, witness for the amended theorem at the concrete result
"Error: boom". -/
theorem c2_witness :
    (specResultClassification (PyVal.str "Error: boom")).1 = Status.FAILURE :=
  c2_runner_failure_implies_spec_failure (PyVal.str "Error: boom") (by decide)

/-- C3, counterexample.  The claim says the Conductor's classifier and
the Tool Runner's classifier are extensionally equal; at the null result
they disagree: the runner classifies `None` as SUCCESS while the
Conductor treats it as an error. -/
theorem c3_counterexample_null_result :
    runToolStatus PyVal.none = Status.SUCCESS ∧
      (isResultAnError PyVal.none).1 = true := by
  constructor <;> rfl

/-- C3, amended.  The Conductor does re-implement its own heuristics;
the two classifiers are not extensionally equal, but every result the
Tool Runner classifies as FAILURE the Conductor also classifies as an
error (the Conductor is strictly stricter: it additionally flags null
results, strings containing "failed", and case-insensitive dict status
values). -/
theorem c3_conductor_error_superset_of_runner_failure (r : PyVal)
    (h : runToolStatus r = Status.FAILURE) :
    (isResultAnError r).1 = true := by
  cases r with
  | none => rfl
  | str s =>
      simp only [runToolStatus] at h
      by_cases hs : strStartsWith (pyLower (pyStrip s)) "error"
      · simp [isResultAnError, hs]
      · simp [hs] at h
  | dict st sm fo =>
      simp only [runToolStatus] at h
      by_cases hf : st == some "failure"
      · have : st = some "failure" := by
          cases st with
          | none => simp at hf
          | some v => simpa using hf
        subst this
        simp [isResultAnError, pyLower, Option.getD]
      · by_cases he : st == some "error"
        · have : st = some "error" := by
            cases st with
            | none => simp at he
            | some v => simpa using he
          subst this
          simp [isResultAnError, pyLower, Option.getD]
        · simp [hf, he] at h
  | other => simp [runToolStatus] at h

/-- C3, witness for the amended theorem at the concrete result
`{status: "failure"}`. -/
theorem c3_witness :
    (isResultAnError (PyVal.dict (some "failure") Option.none Option.none)).1 = true :=
  c3_conductor_error_superset_of_runner_failure
    (PyVal.dict (some "failure") Option.none Option.none) (by decide)

/-! ## Filesystem paths

POSIX paths are component lists.  `Path(s).is_absolute()` is true when
the string starts with "/".  `Path.resolve()` on an absolute base joined
with a relative path normalizes "." and ".." lexically (symlinks are not
modelled); ".." at the filesystem root stays at the root, matching
POSIX. -/

def splitPathAux (cur : List Char) (acc : List String) : List Char → List String
  | [] => acc ++ [String.mk cur.reverse]
  | c :: rest =>
      if c == '/' then splitPathAux [] (acc ++ [String.mk cur.reverse]) rest
      else splitPathAux (c :: cur) acc rest

/-- Python `s.split("/")` (the component split performed by `Path`). -/
def splitPath (s : String) : List String :=
  splitPathAux [] [] s.toList

def isAbsolutePath (s : String) : Bool :=
  strStartsWith s "/"

/-- Normalize path components onto a stack: "" and "." are skipped,
".." pops the last component (no-op at the root), anything else is
pushed.  This is `Path.resolve()` restricted to lexical resolution. -/
def resolveComps (stack : List String) : List String → List String
  | [] => stack
  | c :: rest =>
      if c == "" || c == "." then resolveComps stack rest
      else if c == ".." then resolveComps stack.dropLast rest
      else resolveComps (stack ++ [c]) rest

def renderAbs (comps : List String) : String :=
  comps.foldl (fun acc c => acc ++ "/" ++ c) ""

/-- From `ToolRunnerService._prepare_parameters`
(src/services/tool_runner_service.py, lines 144-152), the treatment of
one path-parameter value when an active project root `base` exists:

    relative_path_str = execution_params[key]
    if isinstance(relative_path_str, str) and relative_path_str:
        path_obj = Path(relative_path_str)
        if not path_obj.is_absolute():
            resolved_path = (base_path / path_obj).resolve()
            execution_params[key] = str(resolved_path)

A non-empty relative value is resolved against the root; an absolute or
empty value is passed through unchanged.  No containment check of any
kind is performed. -/
def preparePathParam (basePath : Option (List String)) (value : String) : String :=
  match basePath with
  | Option.none => value
  | some base =>
      if value != "" && !(isAbsolutePath value) then
        renderAbs (resolveComps base (splitPath value))
      else
        value

/-- Is `p` a descendant of (or equal to) root `root`?  Both are
absolute component lists. -/
def isDescendantOf (root p : List String) : Bool :=
  root.isPrefixOf p

/-! ## Filesystem model and `write_file`

The filesystem is an association list from absolute component paths to
file contents. -/

def FS := List (List String × String)

def fsGet (fs : FS) (p : List String) : Option String :=
  match fs with
  | [] => Option.none
  | (q, c) :: rest => if q == p then some c else fsGet rest p

def fsSet (fs : FS) (p : List String) (c : String) : FS :=
  match fs with
  | [] => [(p, c)]
  | (q, d) :: rest => if q == p then (q, c) :: rest else (q, d) :: fsSet rest p c

/-- From `write_file` (src/foundry/actions/file_system_actions.py,
lines 18-61).  The content validation runs before any touch of the
filesystem:

    if not content or not content.strip():
        error_message = f"Error: Attempted to write an empty or whitespace-only
                          file to '{path}'. Operation aborted."
        return error_message
    ...
    path_obj.parent.mkdir(parents=True, exist_ok=True)
    bytes_written = path_obj.write_text(content, encoding='utf-8')
    return f"Successfully wrote {bytes_written} bytes to {path}"

The GUI streaming of content chunks between validation and write is
elided (it touches no file state); quote punctuation around
interpolated values in messages is elided.  `not content or not
content.strip()` is equivalent to `content.strip() == ""`. -/
def write_file (path : String) (content : String) (fs : FS) : String × FS :=
  if pyStrip content == "" then
    ("Error: Attempted to write an empty or whitespace-only file to "
        ++ path ++ ". Operation aborted.", fs)
  else
    ("Successfully wrote " ++ toString content.length ++ " bytes to " ++ path,
      fsSet fs (resolveComps [] (splitPath path)) content)

/-! ## Tool Runner event trace

From `ToolRunnerService.run_tool` (src/services/tool_runner_service.py,
lines 92-131): `tool_call_initiated` is emitted before the action runs;
after the action, the result is classified and on SUCCESS a
`refresh_file_tree` event is emitted; `tool_call_completed` is emitted
in the `finally` block.  If the action raises, the exception is caught,
the result becomes an error string and no refresh is emitted (status
stays FAILURE). -/

inductive RunnerEvent where
  | toolCallInitiated
  | refreshFileTree
  | toolCallCompleted (status : Status)
  deriving DecidableEq, Repr

/-- Outcome of invoking the action function: a returned value or a
raised exception (with its message). -/
inductive ActionOutcome where
  | ok (r : PyVal)
  | raised (msg : String)
  deriving DecidableEq, Repr

def runToolTrace (outcome : ActionOutcome) : List RunnerEvent :=
  match outcome with
  | .ok r =>
      let st := runToolStatus r
      [RunnerEvent.toolCallInitiated]
        ++ (if st == Status.SUCCESS then [RunnerEvent.refreshFileTree] else [])
        ++ [RunnerEvent.toolCallCompleted st]
  | .raised _ => [RunnerEvent.toolCallInitiated, RunnerEvent.toolCallCompleted Status.FAILURE]

def countRefresh : List RunnerEvent → Nat
  | [] => 0
  | e :: rest => (if e == RunnerEvent.refreshFileTree then 1 else 0) + countRefresh rest

/-- Tool metadata as the spec describes it: the declared parameter names
and whether the tool's name is in the spec's "mutating set".  The spec
calls a tool mutating when any path parameter key is present or the
name is in the mutating set, and read-only otherwise. -/
structure ToolMeta where
  name : String
  params : List String
  inMutatingSet : Bool
  deriving Repr

def PATH_PARAM_KEYS : List String :=
  ["path", "source_path", "destination_path", "requirements_path"]

def specMutating (m : ToolMeta) : Bool :=
  m.params.any (fun p => PATH_PARAM_KEYS.contains p) || m.inMutatingSet

/-- The `request_user_input` tool: its only parameter is the question
text (src/blueprints/request_user_input_bp.py); it touches no file. -/
def requestUserInputMeta : ToolMeta :=
  { name := "request_user_input", params := ["question"], inMutatingSet := false }

end Aura

namespace Aura

/-- C1.  The claim (and the spec) requires that a path parameter whose
resolved absolute form is not a descendant of the project root makes the
invocation a hard FAILURE with no write outside the root.  The code has
no containment check at all: with active root /home/user/project, the
relative value "../escape.txt" is resolved to /home/user/escape.txt —
not a descendant of the root — yet `write_file` performs the write
there, returns a success message, and the runner classifies the result
as SUCCESS. -/
theorem c1_path_escape_executes_write :
    preparePathParam (some ["home", "user", "project"]) "../escape.txt"
        = "/home/user/escape.txt" ∧
      isDescendantOf ["home", "user", "project"]
        (resolveComps [] (splitPath "/home/user/escape.txt")) = false ∧
      (write_file "/home/user/escape.txt" "data" []).1
        = "Successfully wrote 4 bytes to /home/user/escape.txt" ∧
      fsGet (write_file "/home/user/escape.txt" "data" []).2
        ["home", "user", "escape.txt"] = some "data" ∧
      runToolStatus (PyVal.str (write_file "/home/user/escape.txt" "data" []).1)
        = Status.SUCCESS := by
  refine ⟨by decide, by decide, by decide, by decide, by decide⟩

/-- C9.  A `write_file` call whose content is empty or whitespace-only
returns an "Error:"-prefixed message and leaves the filesystem
unchanged — the validation runs before any directory creation or
write. -/
theorem c9_empty_content_write_rejected (path content : String) (fs : FS)
    (h : pyStrip content = "") :
    strStartsWith (write_file path content fs).1 "Error:" = true ∧
      (write_file path content fs).2 = fs := by
  have hc : (pyStrip content == "") = true := by
    rw [h]; rfl
  constructor
  · simp only [write_file, hc, if_pos]
    rfl
  · simp only [write_file, hc, if_pos]

/-- C9, witness at path "a.txt", whitespace-only content "  ", and a
one-file filesystem. -/
theorem c9_witness :
    strStartsWith (write_file "a.txt" "  " [(["b"], "x")]).1 "Error:" = true ∧
      (write_file "a.txt" "  " [(["b"], "x")]).2 = [(["b"], "x")] :=
  c9_empty_content_write_rejected "a.txt" "  " [(["b"], "x")] (by decide)

/-- C8, counterexample.  The claim says a successful read-only tool call
emits the file-tree refresh event zero times.  The `request_user_input`
tool is read-only under the claim's own criterion (no path parameter
keys, not in the mutating set), yet a successful call emits the refresh
event once: the runner emits it for every SUCCESS classification
unconditionally. -/
theorem c8_counterexample_readonly_refresh :
    specMutating requestUserInputMeta = false ∧
      countRefresh (runToolTrace (ActionOutcome.ok (PyVal.str "User answered: yes"))) = 1 := by
  refine ⟨by decide, by decide⟩

/-- C8, amended.  The runner emits the file-tree refresh event exactly
once per tool call whose result classifies as SUCCESS and zero times on
FAILURE or on a raised exception, independently of whether the tool
mutates the workspace or is read-only. -/
theorem c8_refresh_iff_success (outcome : ActionOutcome) :
    countRefresh (runToolTrace outcome)
      = match outcome with
        | .ok r => if runToolStatus r = Status.SUCCESS then 1 else 0
        | .raised _ => 0 := by
  cases outcome with
  | ok r =>
      cases h : runToolStatus r <;>
        simp [runToolTrace, countRefresh, h]
  | raised m => simp [runToolTrace, countRefresh]

/-! ## The unified LLM streaming call

From `DevelopmentTeamService._unified_llm_streamer`
(src/services/development_team_service.py, lines 57-112).  The call
sites that matter to the environment are abstracted: the configured
server url, the role resolution `(provider, model)`, the decrypted API
key, and the HTTP exchange itself (a status code with body/stream
lines, or a raised exception).  One stream line is a newline-delimited
JSON record: a chunk, a final-response record carrying `reply`, some
other JSON object, or a line that fails JSON decoding (skipped by the
loop with `continue`). -/

inductive StreamLine where
  | chunk (content : String)
  | finalResponse (reply : String)
  | otherJson
  | malformed (raw : String)
  deriving DecidableEq, Repr

inductive HttpExchange where
  | response (code : Nat) (detail : String) (lines : List StreamLine)
  | raised (msg : String)
  deriving DecidableEq, Repr

structure StreamEnv where
  serverUrl : Option String
  provider : Option String
  model : Option String
  apiKey : Option String
  role : String
  exchange : HttpExchange

/-- The read loop's capture of `final_response.reply`: each
final-response record overwrites the captured reply, every other line
leaves it unchanged; the initial value is the empty string. -/
def captureReply (lines : List StreamLine) : String :=
  lines.foldl
    (fun acc l =>
      match l with
      | StreamLine.finalResponse r => r
      | _ => acc)
    ""

/-- The streamer itself.  Branches in source order:

    if not self.llm_server_url:
        return "Error: LLM_SERVER_URL is not configured."
    ...
    if not all([provider_name, model_name, api_key]):
        return f"Error: Missing config for role '{role}' or provider
                 '{provider_name}'. Please set it in Settings."
    try:
        ... post ...
        if response.status != 200:
            return f"Error: LLM service failed with status
                     {response.status}. Details: {error_detail}"
        while not response.content.at_eof():
            ...  # captures final_response.reply; undecodable lines skipped
        return final_reply
    except Exception as e:
        error_msg = f"An unexpected error occurred during streaming: {e}"
        return error_msg

Quote punctuation around interpolated values is elided; Python renders
a missing provider as "None". -/
def unified_llm_streamer (env : StreamEnv) : String :=
  if !(pyTruthy env.serverUrl) then
    "Error: LLM_SERVER_URL is not configured."
  else if !(pyTruthy env.provider && pyTruthy env.model && pyTruthy env.apiKey) then
    "Error: Missing config for role " ++ env.role ++ " or provider "
      ++ env.provider.getD "None" ++ ". Please set it in Settings."
  else
    match env.exchange with
    | HttpExchange.raised msg =>
        "An unexpected error occurred during streaming: " ++ msg
    | HttpExchange.response code detail lines =>
        if code != 200 then
          "Error: LLM service failed with status " ++ toString code ++ ". Details: " ++ detail
        else
          captureReply lines

/-- A well-configured environment whose HTTP exchange raises a network
exception. -/
def envNetworkFailure : StreamEnv :=
  { serverUrl := some "http://llm", provider := some "openai", model := some "gpt-4",
    apiKey := some "k", role := "coder", exchange := HttpExchange.raised "Connection refused" }

/-- A well-configured environment whose stream delivers only a line
that fails JSON decoding (a malformed stream). -/
def envMalformedStream : StreamEnv :=
  { serverUrl := some "http://llm", provider := some "openai", model := some "gpt-4",
    apiKey := some "k", role := "coder",
    exchange := HttpExchange.response 200 "" [StreamLine.malformed "not json"] }

end Aura

namespace Aura

/-- C4.  The claim says the unified streaming call returns an
"Error:"-prefixed string on any HTTP failure, network error, or
malformed stream, so a caller's prefix check detects every failure.  On
a network exception the code's `except` branch returns a string
beginning "An unexpected error occurred during streaming:", which does
not carry the "Error:" prefix; and a malformed stream returns the empty
captured reply.  The callers' `startswith("Error:")` checks miss both
failures. -/
theorem c4_streamer_failure_not_error_prefixed :
    unified_llm_streamer envNetworkFailure
        = "An unexpected error occurred during streaming: Connection refused" ∧
      strStartsWith (unified_llm_streamer envNetworkFailure) "Error:" = false ∧
      unified_llm_streamer envMalformedStream = "" ∧
      strStartsWith (unified_llm_streamer envMalformedStream) "Error:" = false := by
  refine ⟨by decide, by decide, by decide, by decide⟩

/-! ## Mission Log

From `MissionLogService` (src/services/mission_log_service.py).  A task
is the dict created by `add_task`; the service state is the task list,
the next task id, and the initial user goal.  Mutators produce a new
state together with the list of emitted events, in emission order.
`hasLogPath` tells whether `_get_log_path()` returns a path (an active
project exists); when it does not, `_save_and_notify` emits the UI
event and returns without writing. -/

structure PyToolCall where
  tool_name : String
  arguments : List (String × String)
  deriving DecidableEq, Repr

structure Task where
  id : Nat
  description : String
  done : Bool
  tool_call : Option PyToolCall
  last_error : Option String
  deriving DecidableEq, Repr

structure MLog where
  tasks : List Task
  nextTaskId : Nat
  initialGoal : String
  deriving DecidableEq, Repr

inductive MLEvent where
  | missionLogUpdated (tasks : List Task)
  | diskWrite (goal : String) (tasks : List Task)
  deriving DecidableEq, Repr

/-- `get_tasks` with no filter returns `list(self.tasks)`: a fresh list
with the same elements (reference-level aliasing is modelled separately
below). -/
def get_tasks (st : MLog) : List Task :=
  st.tasks

/-- `get_tasks(done=...)` returns the filtered comprehension. -/
def get_tasks_filtered (st : MLog) (done : Bool) : List Task :=
  st.tasks.filter (fun t => t.done == done)

/-- From `MissionLogService._save_and_notify` (lines 42-61): the
`mission_log_updated` event is emitted FIRST, then — if a log path
exists — the JSON document is written to disk.

    self.event_bus.emit("mission_log_updated", MissionLogUpdated(tasks=self.get_tasks()))
    log_path = self._get_log_path()
    if not log_path:
        return
    ...
    json.dump(data_to_save, f, indent=2)
-/
def saveAndNotify (hasLogPath : Bool) (st : MLog) : List MLEvent :=
  [MLEvent.missionLogUpdated (get_tasks st)]
    ++ (if hasLogPath then [MLEvent.diskWrite st.initialGoal st.tasks] else [])

/-- The task dict `add_task` builds. -/
def mkNewTask (st : MLog) (description : String) (tool_call : Option PyToolCall) : Task :=
  { id := st.nextTaskId, description := description, done := false,
    tool_call := tool_call, last_error := Option.none }

/-- The state after `add_task` appends the new task and bumps the id
counter. -/
def addTaskState (st : MLog) (description : String) (tool_call : Option PyToolCall) : MLog :=
  { st with
      tasks := st.tasks ++ [mkNewTask st description tool_call]
      nextTaskId := st.nextTaskId + 1 }

/-- `add_task` (lines 104-120); raises ValueError on an empty
description. -/
def add_task (hasLogPath : Bool) (st : MLog) (description : String)
    (tool_call : Option PyToolCall) (notify : Bool) :
    Except String (MLog × Task × List MLEvent) :=
  if description == "" then
    Except.error "Task description cannot be empty."
  else
    Except.ok (addTaskState st description tool_call,
      mkNewTask st description tool_call,
      if notify then saveAndNotify hasLogPath (addTaskState st description tool_call) else [])

/-- The `for step in plan_steps: self.add_task(step, notify=False)`
loops of `set_initial_plan` and `replace_tasks_from_id`. -/
def addTasksNoNotify (hasLogPath : Bool) (st : MLog) : List String → Except String MLog
  | [] => Except.ok st
  | step :: rest =>
      match add_task hasLogPath st step Option.none false with
      | Except.error e => Except.error e
      | Except.ok (st1, _, _) => addTasksNoNotify hasLogPath st1 rest

def indexToolCall : PyToolCall :=
  { tool_name := "index_project_context", arguments := [("path", ".")] }

/-- `set_initial_plan` (lines 87-102): reset state, add the pre-canned
indexing task and one task per step (all with `notify=False`), then one
final `_save_and_notify`. -/
def set_initial_plan (hasLogPath : Bool) (planSteps : List String) (userGoal : String) :
    Except String (MLog × List MLEvent) :=
  match add_task hasLogPath { tasks := [], nextTaskId := 1, initialGoal := userGoal }
      "Index the project to build a contextual map." (some indexToolCall) false with
  | Except.error e => Except.error e
  | Except.ok (st1, _, _) =>
      match addTasksNoNotify hasLogPath st1 planSteps with
      | Except.error e => Except.error e
      | Except.ok st2 => Except.ok (st2, saveAndNotify hasLogPath st2)

/-- The scan of `mark_task_as_done` (lines 122-133) over the task list:
`some (tasks, mutated)` when a task with the id exists (`mutated` is
false when it was already done), `none` when no task matches. -/
def markDoneAux (taskId : Nat) : List Task → Option (List Task × Bool)
  | [] => Option.none
  | t :: rest =>
      if t.id == taskId then
        if t.done then some (t :: rest, false)
        else some ({ t with done := true, last_error := Option.none } :: rest, true)
      else
        match markDoneAux taskId rest with
        | Option.none => Option.none
        | some (rest1, b) => some (t :: rest1, b)

def mark_task_as_done (hasLogPath : Bool) (st : MLog) (taskId : Nat) :
    MLog × Bool × List MLEvent :=
  match markDoneAux taskId st.tasks with
  | Option.none => (st, false, [])
  | some (ts, mutated) =>
      ({ st with tasks := ts }, true,
        if mutated then saveAndNotify hasLogPath { st with tasks := ts } else [])

/-- `clear_all_tasks` (lines 141-148): only a non-empty log is cleared
and saved. -/
def clear_all_tasks (hasLogPath : Bool) (st : MLog) : MLog × List MLEvent :=
  if st.tasks.isEmpty then (st, [])
  else
    ({ tasks := [], nextTaskId := 1, initialGoal := "" },
      saveAndNotify hasLogPath { tasks := [], nextTaskId := 1, initialGoal := "" })

/-- The index scan of `replace_tasks_from_id` (lines 155-159). -/
def findTaskIdx (taskId : Nat) : List Task → Option Nat
  | [] => Option.none
  | t :: rest =>
      if t.id == taskId then some 0
      else
        match findTaskIdx taskId rest with
        | Option.none => Option.none
        | some i => some (i + 1)

/-- `replace_tasks_from_id` (lines 150-173): truncate at the failed
task's position, append the new steps with `notify=False`, then one
`_save_and_notify`; a missing id logs an error and returns with no
mutation and no events. -/
def replace_tasks_from_id (hasLogPath : Bool) (st : MLog) (startTaskId : Nat)
    (newSteps : List String) : Except String (MLog × List MLEvent) :=
  match findTaskIdx startTaskId st.tasks with
  | Option.none => Except.ok (st, [])
  | some i =>
      match addTasksNoNotify hasLogPath { st with tasks := st.tasks.take i } newSteps with
      | Except.error e => Except.error e
      | Except.ok st2 => Except.ok (st2, saveAndNotify hasLogPath st2)

/-- The emission pattern every state-changing mutator actually
produces (with an active project): the UI event first, the disk write
second, both before returning. -/
def emitThenWrite (evs : List MLEvent) : Prop :=
  ∃ ts g, evs = [MLEvent.missionLogUpdated ts, MLEvent.diskWrite g ts]

/-- The claim's emission discipline: every `mission_log_updated` event
is preceded by an earlier disk write. -/
def emitOnlyAfterWrite (evs : List MLEvent) : Prop :=
  ∀ i ts, evs.get? i = some (MLEvent.missionLogUpdated ts) →
    ∃ j g ts2, j < i ∧ evs.get? j = some (MLEvent.diskWrite g ts2)

end Aura

namespace Aura

lemma saveAndNotify_emitThenWrite (st : MLog) :
    emitThenWrite (saveAndNotify true st) :=
  ⟨st.tasks, st.initialGoal, rfl⟩

/-- C5, counterexample.  Clearing a one-task log (with an active
project) emits `mission_log_updated` at position 0 and performs the disk
write at position 1: the event precedes the flush, so the claim's
"emitted only after a successful flush, never before" fails on this
concrete mutator call. -/
theorem c5_counterexample_emit_before_write :
    (clear_all_tasks true
        { tasks := [{ id := 1, description := "t", done := false,
                      tool_call := Option.none, last_error := Option.none }],
          nextTaskId := 2, initialGoal := "g" }).2
      = [MLEvent.missionLogUpdated [], MLEvent.diskWrite "" []] ∧
    ¬ emitOnlyAfterWrite
        (clear_all_tasks true
            { tasks := [{ id := 1, description := "t", done := false,
                          tool_call := Option.none, last_error := Option.none }],
              nextTaskId := 2, initialGoal := "g" }).2 := by
  constructor
  · rfl
  · intro h
    have h0 := h 0 [] (by rfl)
    obtain ⟨j, g, ts2, hj, _⟩ := h0
    exact absurd hj (Nat.not_lt_zero j)

/-- C5, amended.  With an active project, every state-changing Mission
Log mutator runs the save-and-notify step before returning, whose trace
is exactly: `mission_log_updated` first, the disk write second — the
flush does happen in the same step, but the event is emitted before the
disk write, not after it.  (Mutator calls that change nothing emit
nothing and write nothing.) -/
theorem c5_mutators_emit_then_flush (st : MLog) (steps : List String) (goal : String)
    (desc : String) (tc : Option PyToolCall) (taskId : Nat) (newSteps : List String)
    (st1 : MLog) (t : Task) (evs : List MLEvent) (st2 : MLog) (evs2 : List MLEvent)
    (hplan : set_initial_plan true steps goal = Except.ok (st1, evs))
    (hadd : add_task true st desc tc true = Except.ok (st2, t, evs2)) :
    emitThenWrite evs ∧
    emitThenWrite evs2 ∧
    ((mark_task_as_done true st taskId).2.2 = [] ∨
        emitThenWrite (mark_task_as_done true st taskId).2.2) ∧
    (st.tasks ≠ [] → emitThenWrite (clear_all_tasks true st).2) ∧
    (∀ st3 evs3, replace_tasks_from_id true st taskId newSteps = Except.ok (st3, evs3) →
        evs3 = [] ∨ emitThenWrite evs3) := by
  refine ⟨?_, ?_, ?_, ?_, ?_⟩
  · unfold set_initial_plan at hplan
    split at hplan
    · exact absurd hplan (by simp)
    · split at hplan
      · exact absurd hplan (by simp)
      · simp only [Except.ok.injEq, Prod.mk.injEq] at hplan
        rw [← hplan.2]
        exact saveAndNotify_emitThenWrite _
  · unfold add_task at hadd
    split at hadd
    · exact absurd hadd (by simp)
    · simp only [if_pos, Except.ok.injEq, Prod.mk.injEq] at hadd
      rw [← hadd.2.2]
      exact saveAndNotify_emitThenWrite _
  · unfold mark_task_as_done
    rcases h1 : markDoneAux taskId st.tasks with _ | p
    · simp [h1]
    · obtain ⟨ts, mutated⟩ := p
      cases mutated with
      | false => simp [h1]
      | true =>
          simp only [h1]
          exact Or.inr (saveAndNotify_emitThenWrite _)
  · intro hne
    unfold clear_all_tasks
    rw [if_neg (by simpa using hne)]
    exact saveAndNotify_emitThenWrite _
  · intro st3 evs3 hrep
    unfold replace_tasks_from_id at hrep
    split at hrep
    · left
      simp only [Except.ok.injEq, Prod.mk.injEq] at hrep
      exact hrep.2.symm
    · split at hrep
      · exact absurd hrep (by simp)
      · right
        simp only [Except.ok.injEq, Prod.mk.injEq] at hrep
        rw [← hrep.2]
        exact saveAndNotify_emitThenWrite _

/-- The concrete two-task log reached by `set_initial_plan` in the C5
witness. -/
def c5PlanState : MLog :=
  { tasks := [{ id := 1, description := "Index the project to build a contextual map.",
                done := false, tool_call := some indexToolCall, last_error := Option.none },
              { id := 2, description := "step one", done := false,
                tool_call := Option.none, last_error := Option.none }],
    nextTaskId := 3, initialGoal := "goal" }

/-- The concrete one-task log reached by `add_task` in the C5
witness. -/
def c5AddState : MLog :=
  { tasks := [{ id := 1, description := "a task", done := false,
                tool_call := Option.none, last_error := Option.none }],
    nextTaskId := 2, initialGoal := "g" }

/-- C5, witness: all five mutators at concrete inputs. -/
theorem c5_witness :
    emitThenWrite (saveAndNotify true c5PlanState) ∧
    emitThenWrite (saveAndNotify true c5AddState) ∧
    ((mark_task_as_done true { tasks := [], nextTaskId := 1, initialGoal := "g" } 7).2.2 = [] ∨
        emitThenWrite (mark_task_as_done true
          { tasks := [], nextTaskId := 1, initialGoal := "g" } 7).2.2) ∧
    (({ tasks := [], nextTaskId := 1, initialGoal := "g" } : MLog).tasks ≠ [] →
        emitThenWrite (clear_all_tasks true
          { tasks := [], nextTaskId := 1, initialGoal := "g" }).2) ∧
    (∀ st3 evs3, replace_tasks_from_id true
          { tasks := [], nextTaskId := 1, initialGoal := "g" } 7 [] = Except.ok (st3, evs3) →
        evs3 = [] ∨ emitThenWrite evs3) :=
  c5_mutators_emit_then_flush
    { tasks := [], nextTaskId := 1, initialGoal := "g" } ["step one"] "goal"
    "a task" Option.none 7 []
    c5PlanState (mkNewTask { tasks := [], nextTaskId := 1, initialGoal := "g" } "a task" Option.none)
    (saveAndNotify true c5PlanState) c5AddState (saveAndNotify true c5AddState)
    rfl rfl

/-! ## The planner workflow's plan assembly

From `DevelopmentTeamService.run_aura_planner_workflow`
(src/services/development_team_service.py, lines 153-167):

    dependencies = plan_data.get("dependencies", [])
    final_plan = plan_data.get("final_plan", [])
    ...
    if dependencies:
        deps_str = ", ".join(dependencies)
        final_plan.insert(0, f"Add the following dependencies to requirements.txt: {deps_str}")
    ...
    await mission_log_service.set_initial_plan(user_id, final_plan, user_idea)
-/

/-- Python `", ".join(l)`. -/
def joinComma : List String → String
  | [] => ""
  | [s] => s
  | s :: rest => s ++ ", " ++ joinComma rest

def depTaskDescription (deps : List String) : String :=
  "Add the following dependencies to requirements.txt: " ++ joinComma deps

/-- The plan list the workflow hands to `set_initial_plan`. -/
def run_aura_planner_plan (dependencies finalPlan : List String) : List String :=
  if dependencies.isEmpty then finalPlan
  else depTaskDescription dependencies :: finalPlan

/-- The task list the workflow stores in the Mission Log (empty when
`set_initial_plan` raises). -/
def plannerStoredTasks (deps plan : List String) (goal : String) : List Task :=
  match set_initial_plan true (run_aura_planner_plan deps plan) goal with
  | Except.ok (st, _) => st.tasks
  | Except.error _ => []

end Aura

namespace Aura

lemma isPrefixOf_append_self : ∀ (p t : List Char), p.isPrefixOf (p ++ t) = true
  | [], t => by cases t <;> rfl
  | c :: p, t => by
      simp [List.isPrefixOf, isPrefixOf_append_self p t]

lemma strStartsWith_append (a b : String) : strStartsWith (a ++ b) a = true := by
  unfold strStartsWith
  have h : (a ++ b).toList = a.toList ++ b.toList := by
    show (a ++ b).data = a.data ++ b.data
    simp
  rw [h]
  exact isPrefixOf_append_self a.toList b.toList

lemma addTasksNoNotify_descriptions :
    ∀ (steps : List String) (st : MLog), (∀ s ∈ steps, s ≠ "") →
      ∃ st2, addTasksNoNotify true st steps = Except.ok st2 ∧
        st2.tasks.map Task.description = st.tasks.map Task.description ++ steps
  | [], st, _ => ⟨st, rfl, by simp⟩
  | s :: rest, st, h => by
      have hs : (s == "") = false := by
        have := h s (List.mem_cons_self s rest)
        simpa using this
      obtain ⟨st2, h2, h3⟩ := addTasksNoNotify_descriptions rest (addTaskState st s Option.none)
        (fun x hx => h x (List.mem_cons_of_mem s hx))
      refine ⟨st2, ?_, ?_⟩
      · simp only [addTasksNoNotify, add_task, hs, Bool.false_eq_true, if_false]
        exact h2
      · rw [h3]
        simp [addTaskState, mkNewTask]

/-- C6, counterexample.  The claim says the stored plan contains no
dependency-installation task.  When the planner's JSON reply carries
`dependencies = ["flask"]`, the workflow inserts "Add the following
dependencies to requirements.txt: flask" at the head of the plan, and
that task is stored in the Mission Log (position 1, right after the
pre-canned indexing task). -/
theorem c6_counterexample_dependency_task_stored :
    ((plannerStoredTasks ["flask"] ["Create src directory."] "build it").map
        Task.description).get? 1
      = some "Add the following dependencies to requirements.txt: flask" ∧
    ((plannerStoredTasks ["flask"] ["Create src directory."] "build it").filter
        (fun t => strContains t.description "requirements.txt")).length = 1 := by
  refine ⟨by rfl, by rfl⟩

/-- C6, amended.  The workflow adds a dependency task exactly when the
parsed `dependencies` list is non-empty: it then stores (after the
pre-canned indexing task) one task of the form "Add the following
dependencies to requirements.txt: ..." followed by the sequencer's
final plan unchanged; with an empty `dependencies` list the final plan
is stored unchanged with no inserted task. -/
theorem c6_dependency_task_iff_dependencies (deps plan : List String) (goal : String)
    (hplan : ∀ s ∈ plan, s ≠ "") :
    (deps ≠ [] →
        (plannerStoredTasks deps plan goal).map Task.description
          = ["Index the project to build a contextual map.", depTaskDescription deps] ++ plan ∧
        strStartsWith (depTaskDescription deps)
          "Add the following dependencies to requirements.txt: " = true) ∧
    (deps = [] →
        (plannerStoredTasks deps plan goal).map Task.description
          = "Index the project to build a contextual map." :: plan) := by
  constructor
  · intro hdeps
    refine ⟨?_, ?_⟩
    · have hne : deps.isEmpty = false := by
        cases deps with
        | nil => exact absurd rfl hdeps
        | cons a l => rfl
      have hdep_ne : depTaskDescription deps ≠ "" := by
        intro h
        have hd := congrArg String.data h
        have : (depTaskDescription deps).data
            = "Add the following dependencies to requirements.txt: ".data
              ++ (joinComma deps).data := by
          show ("Add the following dependencies to requirements.txt: "
              ++ joinComma deps).data = _
          simp
        rw [this] at hd
        exact absurd (List.append_eq_nil.mp hd).1 (by decide)
      have hsteps : ∀ s ∈ run_aura_planner_plan deps plan, s ≠ "" := by
        intro s hs
        unfold run_aura_planner_plan at hs
        rw [hne] at hs
        simp only [Bool.false_eq_true, if_false, List.mem_cons] at hs
        rcases hs with h | h
        · rw [h]; exact hdep_ne
        · exact hplan s h
      obtain ⟨st2, h2, h3⟩ := addTasksNoNotify_descriptions (run_aura_planner_plan deps plan)
        (addTaskState { tasks := [], nextTaskId := 1, initialGoal := goal }
          "Index the project to build a contextual map." (some indexToolCall)) hsteps
      have hidx : ("Index the project to build a contextual map." == "") = false := by decide
      unfold plannerStoredTasks set_initial_plan
      simp only [add_task, hidx, Bool.false_eq_true, if_false, h2]
      rw [h3]
      unfold run_aura_planner_plan
      rw [hne]
      simp [addTaskState, mkNewTask]
    · exact strStartsWith_append "Add the following dependencies to requirements.txt: "
        (joinComma deps)
  · intro hdeps
    subst hdeps
    have hsteps : ∀ s ∈ run_aura_planner_plan [] plan, s ≠ "" := by
      intro s hs
      exact hplan s hs
    obtain ⟨st2, h2, h3⟩ := addTasksNoNotify_descriptions (run_aura_planner_plan [] plan)
      (addTaskState { tasks := [], nextTaskId := 1, initialGoal := goal }
        "Index the project to build a contextual map." (some indexToolCall)) hsteps
    have hidx : ("Index the project to build a contextual map." == "") = false := by decide
    unfold plannerStoredTasks set_initial_plan
    simp only [add_task, hidx, Bool.false_eq_true, if_false, h2]
    rw [h3]
    simp [addTaskState, mkNewTask, run_aura_planner_plan]

/-- C6, witness for the amended theorem at `dependencies = ["fastapi",
"uvicorn"]` and a two-step final plan. -/
theorem c6_witness :
    ((["fastapi", "uvicorn"] : List String) ≠ [] →
        (plannerStoredTasks ["fastapi", "uvicorn"]
            ["Create src.", "Implement src/main.py."] "api").map Task.description
          = ["Index the project to build a contextual map.",
             depTaskDescription ["fastapi", "uvicorn"]]
            ++ ["Create src.", "Implement src/main.py."] ∧
        strStartsWith (depTaskDescription ["fastapi", "uvicorn"])
          "Add the following dependencies to requirements.txt: " = true) ∧
    ((["fastapi", "uvicorn"] : List String) = [] →
        (plannerStoredTasks ["fastapi", "uvicorn"]
            ["Create src.", "Implement src/main.py."] "api").map Task.description
          = "Index the project to build a contextual map."
            :: ["Create src.", "Implement src/main.py."]) :=
  c6_dependency_task_iff_dependencies ["fastapi", "uvicorn"]
    ["Create src.", "Implement src/main.py."] "api" (by decide)

/-! ## The Conductor's per-task retry loop

From `ConductorService.execute_mission`
(src/services/conductor_service.py, lines 149-186):

    retry_count = 0
    task_succeeded = False
    while retry_count <= self.MAX_RETRIES_PER_TASK:
        if not await mission_control.is_mission_running(user_id):
            break
        tool_call = await self._get_tool_call_for_task(user_id, current_task,
                                                       current_task.get('last_error'))
        if not tool_call:
            error_msg = f"Could not determine a tool call for task: '...'"
            current_task['last_error'] = error_msg
            retry_count += 1
            continue
        result = await tool_runner_service.run_tool_by_dict(tool_call, ...)
        result_is_error, error_message = self._is_result_an_error(result)
        if not result_is_error:
            await mission_log_service.mark_task_as_done(...)
            task_succeeded = True
            break
        else:
            current_task['last_error'] = error_message
            retry_count += 1
    if not task_succeeded and await mission_control.is_mission_running(user_id):
        await self._execute_strategic_replan(user_id, current_task)

The environment abstracts the non-deterministic collaborators: whether
the mission is still running at the top of attempt `i` and at the
replan guard, and the outcome of attempt `i` (`noToolCall` when
`_get_tool_call_for_task` returns None, otherwise the tool result the
runner returned, classified by `_is_result_an_error`).  The loop is
embedded with explicit fuel: `fuel = MAX_RETRIES_PER_TASK + 1 -
retry_count` remaining iterations. -/

inductive ToolSelection where
  | noToolCall
  | toolResult (r : PyVal)

structure ConductorEnv where
  running : Nat → Bool
  runningAfter : Bool
  selection : Nat → ToolSelection

inductive CEvent where
  | attemptMade (i : Nat)
  | recordedLastError (e : String)
  | markedDone (id : Nat)
  | replanInvoked (failed : Task)
  deriving DecidableEq, Repr

structure TaskLoopResult where
  task : Task
  succeeded : Bool
  trace : List CEvent
  deriving DecidableEq, Repr

def MAX_RETRIES_PER_TASK : Nat := 1

def noToolCallMsg (t : Task) : String :=
  "Could not determine a tool call for task: " ++ t.description

/-- `current_task['last_error'] = msg` on a failed attempt. -/
def failTask (t : Task) (msg : String) : Task :=
  { t with last_error := some msg }

/-- The events of one failed attempt, prepended to the rest of the
loop. -/
def withFailEvents (i : Nat) (msg : String) (rest : TaskLoopResult) : TaskLoopResult :=
  { task := rest.task, succeeded := rest.succeeded,
    trace := CEvent.attemptMade i :: CEvent.recordedLastError msg :: rest.trace }

def retryLoopAux (env : ConductorEnv) : Nat → Task → Nat → TaskLoopResult
  | 0, t, _ => { task := t, succeeded := false, trace := [] }
  | fuel + 1, t, i =>
      if env.running i = false then { task := t, succeeded := false, trace := [] }
      else
        match env.selection i with
        | ToolSelection.noToolCall =>
            withFailEvents i (noToolCallMsg t)
              (retryLoopAux env fuel (failTask t (noToolCallMsg t)) (i + 1))
        | ToolSelection.toolResult r =>
            if (isResultAnError r).1 = false then
              { task := t, succeeded := true,
                trace := [CEvent.attemptMade i, CEvent.markedDone t.id] }
            else
              withFailEvents i ((isResultAnError r).2.getD "")
                (retryLoopAux env fuel (failTask t ((isResultAnError r).2.getD "")) (i + 1))

def executeTaskAttempts (env : ConductorEnv) (t : Task) : TaskLoopResult :=
  retryLoopAux env (MAX_RETRIES_PER_TASK + 1) t 0

/-- The retry loop followed by the replan guard. -/
def executeTaskStep (env : ConductorEnv) (t : Task) : TaskLoopResult :=
  if (executeTaskAttempts env t).succeeded = false ∧ env.runningAfter = true then
    { task := (executeTaskAttempts env t).task,
      succeeded := (executeTaskAttempts env t).succeeded,
      trace := (executeTaskAttempts env t).trace
        ++ [CEvent.replanInvoked (executeTaskAttempts env t).task] }
  else executeTaskAttempts env t

def countAttempts : List CEvent → Nat
  | [] => 0
  | CEvent.attemptMade _ :: rest => 1 + countAttempts rest
  | _ :: rest => countAttempts rest

/-- Scans a trace checking that every re-attempt (an `attemptMade i`
with `i > 0`) is preceded by a `recordedLastError` since the previous
attempt: the failure of each attempt records `last_error` before the
next attempt starts. -/
def reattemptsCovered : Bool → List CEvent → Bool
  | _, [] => true
  | seen, CEvent.attemptMade i :: rest => (i == 0 || seen) && reattemptsCovered false rest
  | _, CEvent.recordedLastError _ :: rest => reattemptsCovered true rest
  | seen, _ :: rest => reattemptsCovered seen rest

/-- The C7 property: at most `MAX_RETRIES_PER_TASK + 1 = 2` attempts;
`last_error` recorded before every re-attempt; if the loop ends without
success while the mission is still running, the trace ends with the
replan invocation, receiving the task still pending (`done = false`)
and carrying its recorded `last_error`. -/
def RetryClaim (env : ConductorEnv) (t : Task) : Prop :=
  countAttempts (executeTaskStep env t).trace ≤ MAX_RETRIES_PER_TASK + 1 ∧
  reattemptsCovered false (executeTaskStep env t).trace = true ∧
  ((executeTaskStep env t).succeeded = false → env.runningAfter = true →
      (executeTaskStep env t).trace.getLast?
          = some (CEvent.replanInvoked (executeTaskStep env t).task) ∧
      (executeTaskStep env t).task.done = false ∧
      (executeTaskStep env t).task.last_error ≠ Option.none)

end Aura

namespace Aura

lemma countAttempts_concat_replan (tr : List CEvent) (t : Task) :
    countAttempts (tr ++ [CEvent.replanInvoked t]) = countAttempts tr := by
  induction tr with
  | nil => rfl
  | cons e rest ih =>
      cases e <;> simp [countAttempts, ih]

lemma reattemptsCovered_concat_replan :
    ∀ (tr : List CEvent) (seen : Bool) (t : Task),
      reattemptsCovered seen (tr ++ [CEvent.replanInvoked t]) = reattemptsCovered seen tr
  | [], seen, t => by cases seen <;> rfl
  | e :: rest, seen, t => by
      cases e <;>
        simp [reattemptsCovered, reattemptsCovered_concat_replan rest]

lemma retryLoopAux_countAttempts (env : ConductorEnv) :
    ∀ (fuel : Nat) (t : Task) (i : Nat),
      countAttempts (retryLoopAux env fuel t i).trace ≤ fuel
  | 0, t, i => Nat.le_refl 0
  | fuel + 1, t, i => by
      by_cases hr : env.running i = false
      · simp [retryLoopAux, hr, countAttempts]
      · rcases hsel : env.selection i with _ | r
        · simp only [retryLoopAux, hr, if_neg, hsel, withFailEvents, countAttempts]
          have := retryLoopAux_countAttempts env fuel (failTask t (noToolCallMsg t)) (i + 1)
          omega
        · by_cases herr : (isResultAnError r).1 = false
          · simp only [retryLoopAux, hr, if_neg, hsel, herr, if_pos, countAttempts]
            omega
          · simp only [retryLoopAux, hr, if_neg, hsel, herr, withFailEvents, countAttempts]
            have := retryLoopAux_countAttempts env fuel
              (failTask t ((isResultAnError r).2.getD "")) (i + 1)
            omega

lemma retryLoopAux_covered (env : ConductorEnv) :
    ∀ (fuel : Nat) (t : Task) (i : Nat) (seen : Bool),
      (seen = true ∨ i = 0) →
      reattemptsCovered seen (retryLoopAux env fuel t i).trace = true
  | 0, t, i, seen, _ => by cases seen <;> rfl
  | fuel + 1, t, i, seen, h => by
      by_cases hr : env.running i = false
      · simp only [retryLoopAux, hr, if_pos]
        cases seen <;> rfl
      · have hpass : (i == 0 || seen) = true := by
          rcases h with h | h
          · simp [h]
          · simp [h]
        rcases hsel : env.selection i with _ | r
        · simp only [retryLoopAux, hr, if_neg, hsel, withFailEvents, reattemptsCovered, hpass,
            Bool.true_and]
          exact retryLoopAux_covered env fuel _ (i + 1) true (Or.inl rfl)
        · by_cases herr : (isResultAnError r).1 = false
          · simp [retryLoopAux, hr, hsel, herr, reattemptsCovered, hpass]
          · simp only [retryLoopAux, hr, if_neg, hsel, herr, withFailEvents, reattemptsCovered,
              hpass, Bool.true_and]
            exact retryLoopAux_covered env fuel _ (i + 1) true (Or.inl rfl)

lemma retryLoopAux_done (env : ConductorEnv) :
    ∀ (fuel : Nat) (t : Task) (i : Nat),
      (retryLoopAux env fuel t i).task.done = t.done
  | 0, t, i => rfl
  | fuel + 1, t, i => by
      by_cases hr : env.running i = false
      · simp [retryLoopAux, hr]
      · rcases hsel : env.selection i with _ | r
        · simp only [retryLoopAux, hr, hsel, withFailEvents, Bool.true_eq_false, if_false]
          rw [retryLoopAux_done env fuel (failTask t (noToolCallMsg t)) (i + 1)]
          rfl
        · by_cases herr : (isResultAnError r).1 = false
          · simp [retryLoopAux, hr, hsel, herr]
          · simp only [retryLoopAux, hr, hsel, withFailEvents, Bool.true_eq_false, if_false]
            rw [if_neg herr]
            rw [retryLoopAux_done env fuel (failTask t ((isResultAnError r).2.getD "")) (i + 1)]
            rfl

lemma retryLoopAux_task_shape (env : ConductorEnv) :
    ∀ (fuel : Nat) (t : Task) (i : Nat),
      (retryLoopAux env fuel t i).task = t ∨
        (retryLoopAux env fuel t i).task.last_error ≠ Option.none
  | 0, t, i => Or.inl rfl
  | fuel + 1, t, i => by
      by_cases hr : env.running i = false
      · simp [retryLoopAux, hr]
      · rcases hsel : env.selection i with _ | r
        · simp only [retryLoopAux, hr, if_neg, hsel, withFailEvents]
          rcases retryLoopAux_task_shape env fuel (failTask t (noToolCallMsg t)) (i + 1) with
            h | h
          · rw [h]
            right
            simp [failTask]
          · exact Or.inr h
        · by_cases herr : (isResultAnError r).1 = false
          · simp [retryLoopAux, hr, hsel, herr]
          · simp only [retryLoopAux, hr, if_neg, hsel, herr, withFailEvents]
            rcases retryLoopAux_task_shape env fuel
              (failTask t ((isResultAnError r).2.getD "")) (i + 1) with h | h
            · rw [h]
              right
              simp [failTask]
            · exact Or.inr h

lemma retryLoopAux_failed_has_error (env : ConductorEnv) (fuel : Nat) (t : Task) (i : Nat)
    (hr : env.running i = true)
    (hf : (retryLoopAux env (fuel + 1) t i).succeeded = false) :
    (retryLoopAux env (fuel + 1) t i).task.last_error ≠ Option.none := by
  have hr1 : ¬ (env.running i = false) := by simp [hr]
  rcases hsel : env.selection i with _ | r
  · simp only [retryLoopAux, hr1, if_neg, hsel, withFailEvents]
    rcases retryLoopAux_task_shape env fuel (failTask t (noToolCallMsg t)) (i + 1) with h | h
    · rw [h]; simp [failTask]
    · exact h
  · by_cases herr : (isResultAnError r).1 = false
    · exact absurd hf (by simp [retryLoopAux, hr1, hsel, herr])
    · simp only [retryLoopAux, hr1, if_neg, hsel, herr, withFailEvents]
      rcases retryLoopAux_task_shape env fuel
        (failTask t ((isResultAnError r).2.getD "")) (i + 1) with h | h
      · rw [h]; simp [failTask]
      · exact h

/-- C7.  For every pending task, the Conductor makes at most two
attempts (`MAX_RETRIES_PER_TASK = 1`); `last_error` is recorded before
each reattempt; and when both attempts fail while the mission is still
running, the trace ends with the Replanner invocation, which receives
the task still pending and carrying its recorded `last_error`.  The
`hmono` hypothesis states that the mission-running flag is one-way
during a mission: if it reads true at the replan guard, it read true at
the earlier attempt checks. -/
theorem c7_retry_budget_and_replan (env : ConductorEnv) (t : Task)
    (ht : t.done = false)
    (hmono : env.runningAfter = true → env.running 0 = true ∧ env.running 1 = true) :
    RetryClaim env t := by
  unfold RetryClaim executeTaskStep
  by_cases hguard : (executeTaskAttempts env t).succeeded = false ∧ env.runningAfter = true
  · simp only [hguard, and_self, if_pos, true_and]
    refine ⟨?_, ?_, ?_⟩
    · rw [countAttempts_concat_replan]
      exact retryLoopAux_countAttempts env (MAX_RETRIES_PER_TASK + 1) t 0
    · rw [reattemptsCovered_concat_replan]
      exact retryLoopAux_covered env (MAX_RETRIES_PER_TASK + 1) t 0 false (Or.inr rfl)
    · intro _ _
      refine ⟨?_, ?_, ?_⟩
      · exact List.getLast?_concat _
      · rw [executeTaskAttempts, retryLoopAux_done env (MAX_RETRIES_PER_TASK + 1) t 0]
        exact ht
      · exact retryLoopAux_failed_has_error env MAX_RETRIES_PER_TASK t 0
          (hmono hguard.2).1 hguard.1
  · simp only [hguard, if_neg]
    refine ⟨?_, ?_, ?_⟩
    · exact retryLoopAux_countAttempts env (MAX_RETRIES_PER_TASK + 1) t 0
    · exact retryLoopAux_covered env (MAX_RETRIES_PER_TASK + 1) t 0 false (Or.inr rfl)
    · intro h1 h2
      exact absurd ⟨h1, h2⟩ hguard

/-- C7, witness: an always-running mission with both attempts returning
an "Error:"-classified tool result. -/
theorem c7_witness :
    RetryClaim
      { running := fun _ => true, runningAfter := true,
        selection := fun _ => ToolSelection.toolResult (PyVal.str "Error: boom") }
      { id := 3, description := "Create empty file src/main.py.", done := false,
        tool_call := Option.none, last_error := Option.none } :=
  c7_retry_budget_and_replan _ _ rfl (fun _ => ⟨rfl, rfl⟩)

end Aura

namespace Aura

/-! ## Reference semantics of `get_tasks`

`MissionLogService.get_tasks` (lines 135-139) returns `list(self.tasks)`
— a *new* list object holding the *same* task dict references.  The
Conductor then mutates a returned task in place
(`current_task['last_error'] = error_message`, conductor_service.py
line 175) without any save.  To state this aliasing, Python objects are
modelled with an explicit two-level heap: `taskHeap` holds task dicts
addressed by reference, `listHeap` holds list objects (lists of task
references).  The Mission Log's own `self.tasks` is the list object at
`logListRef`. -/

def listUpdate {α : Type} : List α → Nat → (α → α) → List α
  | [], _, _ => []
  | x :: rest, 0, f => f x :: rest
  | x :: rest, n + 1, f => x :: listUpdate rest n f

structure World where
  taskHeap : List Task
  listHeap : List (List Nat)

def defaultTask : Task :=
  { id := 0, description := "", done := false,
    tool_call := Option.none, last_error := Option.none }

/-- `get_tasks` with no filter: allocate a fresh list object with the
same task references; return the new world and the new list's
reference. -/
def get_tasks_refs (w : World) (logListRef : Nat) : World × Nat :=
  ({ w with listHeap := w.listHeap ++ [w.listHeap.getD logListRef []] },
    w.listHeap.length)

/-- `returned_list.append(task)` on a list object. -/
def listAppendOp (w : World) (listRef taskRef : Nat) : World :=
  { w with listHeap := listUpdate w.listHeap listRef (fun l => l ++ [taskRef]) }

/-- `del returned_list[i]` on a list object. -/
def listRemoveAtOp (w : World) (listRef : Nat) (i : Nat) : World :=
  { w with listHeap := listUpdate w.listHeap listRef (fun l => l.eraseIdx i) }

/-- The Conductor's `current_task['last_error'] = error_message`: a
plain field assignment through the task reference; it emits no events
and performs no save. -/
def conductorRecordLastError (w : World) (taskRef : Nat) (e : String) : World × List MLEvent :=
  ({ w with
      taskHeap := listUpdate w.taskHeap taskRef (fun t => { t with last_error := some e }) },
    [])

/-- The task sequence the Mission Log sees: its own list object's
references, dereferenced through the task heap. -/
def logView (w : World) (logListRef : Nat) : List Task :=
  (w.listHeap.getD logListRef []).map (fun r => w.taskHeap.getD r defaultTask)

/-- The C10 property.  With `(w1, ret) = get_tasks_refs w logRef`:
the returned list is a fresh object (`ret ≠ logRef`) with the same
elements; the allocation leaves the log's view unchanged; appending to
or removing from the returned list leaves the log's view unchanged;
but assigning `last_error` through a returned task reference changes
the log's view at every position holding that reference — and emits no
event and no disk write. -/
def AliasClaim (w : World) (logRef taskRef : Nat) (e : String) (i : Nat) : Prop :=
  (get_tasks_refs w logRef).2 ≠ logRef ∧
  (get_tasks_refs w logRef).1.listHeap.getD (get_tasks_refs w logRef).2 []
      = w.listHeap.getD logRef [] ∧
  logView (get_tasks_refs w logRef).1 logRef = logView w logRef ∧
  logView (listAppendOp (get_tasks_refs w logRef).1 (get_tasks_refs w logRef).2 taskRef) logRef
      = logView w logRef ∧
  logView (listRemoveAtOp (get_tasks_refs w logRef).1 (get_tasks_refs w logRef).2 i) logRef
      = logView w logRef ∧
  logView (conductorRecordLastError w taskRef e).1 logRef
      = (w.listHeap.getD logRef []).map
          (fun r =>
            if r == taskRef then
              { w.taskHeap.getD r defaultTask with last_error := some e }
            else w.taskHeap.getD r defaultTask) ∧
  (conductorRecordLastError w taskRef e).2 = []

end Aura

namespace Aura

lemma getD_append_lt {α : Type} :
    ∀ (l l2 : List α) (i : Nat) (d : α), i < l.length → (l ++ l2).getD i d = l.getD i d
  | [], _, i, _, h => absurd h (Nat.not_lt_zero i)
  | _ :: _, _, 0, _, _ => rfl
  | _ :: rest, l2, i + 1, d, h => by
      have := getD_append_lt rest l2 i d (Nat.lt_of_succ_lt_succ h)
      simp [List.getD] at this ⊢
      exact this

lemma getD_append_self {α : Type} :
    ∀ (l : List α) (x d : α), (l ++ [x]).getD l.length d = x
  | [], _, _ => rfl
  | y :: rest, x, d => by
      simp [List.getD, getD_append_self rest x d]

lemma listUpdate_getD_ne {α : Type} :
    ∀ (L : List α) (i j : Nat) (f : α → α) (d : α), i ≠ j →
      (listUpdate L i f).getD j d = L.getD j d
  | [], _, _, _, _, _ => rfl
  | x :: rest, 0, 0, f, d, h => absurd rfl h
  | x :: rest, 0, j + 1, f, d, _ => rfl
  | x :: rest, i + 1, 0, f, d, _ => rfl
  | x :: rest, i + 1, j + 1, f, d, h => by
      simpa [listUpdate, List.getD] using
        listUpdate_getD_ne rest i j f d (fun hij => h (congrArg Nat.succ hij))

lemma listUpdate_getD_eq {α : Type} :
    ∀ (L : List α) (i : Nat) (f : α → α) (d : α), i < L.length →
      (listUpdate L i f).getD i d = f (L.getD i d)
  | [], i, _, _, h => absurd h (Nat.not_lt_zero i)
  | x :: rest, 0, f, d, _ => rfl
  | x :: rest, i + 1, f, d, h => by
      simpa [listUpdate, List.getD] using
        listUpdate_getD_eq rest i f d (Nat.lt_of_succ_lt_succ h)

/-- C10.  `get_tasks` returns a fresh list aliasing the log's task
records: list-level edits on the returned list never change the log,
while a field assignment through a returned task (the Conductor's
`last_error` update) changes the log's in-memory view, with no event
emitted and no save to disk. -/
theorem c10_get_tasks_aliasing (w : World) (logRef taskRef : Nat) (e : String) (i : Nat)
    (hlog : logRef < w.listHeap.length) (htask : taskRef < w.taskHeap.length) :
    AliasClaim w logRef taskRef e i := by
  have hne : w.listHeap.length ≠ logRef := Nat.ne_of_gt hlog
  refine ⟨hne, ?_, ?_, ?_, ?_, ?_, rfl⟩
  · exact getD_append_self w.listHeap (w.listHeap.getD logRef []) []
  · unfold logView get_tasks_refs
    rw [getD_append_lt w.listHeap _ logRef [] hlog]
  · unfold logView listAppendOp get_tasks_refs
    rw [listUpdate_getD_ne _ _ _ _ _ hne, getD_append_lt w.listHeap _ logRef [] hlog]
  · unfold logView listRemoveAtOp get_tasks_refs
    rw [listUpdate_getD_ne _ _ _ _ _ hne, getD_append_lt w.listHeap _ logRef [] hlog]
  · unfold logView conductorRecordLastError
    have hfun : (fun r => (listUpdate w.taskHeap taskRef
          (fun t => { t with last_error := some e })).getD r defaultTask)
        = (fun r =>
            if r == taskRef then
              { w.taskHeap.getD r defaultTask with last_error := some e }
            else w.taskHeap.getD r defaultTask) := by
      funext r
      by_cases hr : r = taskRef
      · subst hr
        rw [listUpdate_getD_eq w.taskHeap r _ defaultTask htask]
        simp
      · rw [listUpdate_getD_ne w.taskHeap taskRef r _ defaultTask (fun h => hr h.symm)]
        simp [hr]
    rw [hfun]

/-- C10, witness: a two-task heap whose log list holds both
references; the Conductor records an error through the second. -/
theorem c10_witness :
    AliasClaim
      { taskHeap :=
          [{ id := 1, description := "a", done := true,
             tool_call := Option.none, last_error := Option.none },
           { id := 2, description := "b", done := false,
             tool_call := Option.none, last_error := Option.none }],
        listHeap := [[0, 1]] }
      0 1 "boom" 0 :=
  c10_get_tasks_aliasing _ 0 1 "boom" 0 (by decide) (by decide)

end Aura
